import Mathlib

/-!
Verification development for the cloudwatch-to-graphite metric pipeline
(src/leadbutt.py).  Python values, dictionaries and the pipeline functions are
shallowly embedded; datetimes are microseconds since the epoch (integers),
millisecond epochs are plain integers.  Fallible Python code (KeyError,
IndexError, TypeError, ValueError, uncaught AttributeError) is embedded with
Except.  Where the original is documented to run under Python 2 as well as 3,
the Python 2 semantics of builtins is used (filter returning a list, integer
division flooring); deviations are noted at the definition concerned.
-/

/-- Exception kinds that the embedded pipeline code can raise. -/
inductive Err where
  | keyError
  | indexError
  | typeError
  | valueError
  | attributeError
deriving DecidableEq

/-- Embedded Python values: the scalar and container shapes that flow through
leadbutt.py.  Dictionaries are association lists with string keys in insertion
order, matching the configuration and API-result dictionaries of the source.
Floats are not modelled; every numeric value in the claims is an integer. -/
inductive PyVal where
  | int (n : Int)
  | str (s : String)
  | list (xs : List PyVal)
  | dict (entries : List (String × PyVal))

/-- A Python dictionary with string keys, in insertion order. -/
abbrev PyDict := List (String × PyVal)

/-- Lookup of a key in an association list: the first binding wins, as in a
well-formed Python dictionary (which never holds a duplicate key). -/
def alookup {α : Type} : List (String × α) → String → Option α
  | [], _ => none
  | (k0, v0) :: rest, k => if k0 = k then some v0 else alookup rest k

/-- Python d[k] = v on an association list: overwrite the first binding of k in
place, or append a new binding, exactly as dictionary assignment behaves. -/
def set_key {α : Type} : List (String × α) → String → α → List (String × α)
  | [], k, v => [(k, v)]
  | (k0, v0) :: rest, k, v =>
      if k0 = k then (k, v) :: rest else (k0, v0) :: set_key rest k v

/-- Python dict.update(other): assign every binding of other into d, in order. -/
def dict_update {α : Type} (d other : List (String × α)) : List (String × α) :=
  other.foldl (fun acc kv => set_key acc kv.1 kv.2) d

/-- First defined of two optional values (used to state lookup precedence). -/
def opt_first {α : Type} : Option α → Option α → Option α
  | some v, _ => some v
  | none, b => b

/-- The key list of an association list. -/
def dict_keys {α : Type} (d : List (String × α)) : List String :=
  d.map Prod.fst

/-- True when the value is a dictionary (Python: has a values method). -/
def is_dict : PyVal → Bool
  | .dict _ => true
  | _ => false

/-- Python type(v) is int: true exactly for integer values.  The source also
accepts float here; floats are not modelled, so integers are the numeric case. -/
def is_numeric : PyVal → Bool
  | .int _ => true
  | _ => false

/-- Dictionary subscription d[k]: the value, or KeyError when absent. -/
def get_key (d : PyDict) (k : String) : Except Err PyVal :=
  match alookup d k with
  | none => .error .keyError
  | some v => .ok v

/-- The integer content of a value, or TypeError where the source would go on to
apply integer arithmetic to a non-integer. -/
def as_int : PyVal → Except Err Int
  | .int n => .ok n
  | _ => .error .typeError

/-- The string content of a value, or TypeError where the source would go on to
apply percent-formatting to a non-string. -/
def as_str : PyVal → Except Err String
  | .str s => .ok s
  | _ => .error .typeError

/-- The entry list of a dictionary value, or a TypeError standing for the
AttributeError or TypeError Python raises when treating it as a mapping. -/
def as_dict : PyVal → Except Err PyDict
  | .dict d => .ok d
  | _ => .error .typeError

/-- Python str(v) for the scalar values that reach the output lines.  Container
reprs are not modelled; no claim exercises them. -/
def py_str_scalar : PyVal → Except Err String
  | .int n => .ok (toString n)
  | .str s => .ok s
  | _ => .error .typeError

/-- The MetricName field as a list: leadbutt.py lines 368-370 wrap a non-list
value in a singleton list. -/
def py_as_list : PyVal → List PyVal
  | .list l => l
  | v => [v]

/-- DEFAULT_OPTIONS of leadbutt.py lines 45-49. -/
def DEFAULT_OPTIONS : PyDict :=
  [("Period", .int 1),
   ("Count", .int 5),
   ("Formatter", .str "cloudwatch.%(Namespace)s.%(dimension)s.%(MetricName)s.%(statistic)s.%(Unit)s")]

/-- get_options of leadbutt.py lines 70-87: start from a copy of
DEFAULT_OPTIONS and update with the config-level, metric-level and CLI
dictionaries in that order, skipping the ones that are None. -/
def get_options (config_options local_options cli_options : Option PyDict) : PyDict :=
  let options := DEFAULT_OPTIONS
  let options := match config_options with
    | none => options
    | some d => dict_update options d
  let options := match local_options with
    | none => options
    | some d => dict_update options d
  match cli_options with
  | none => options
  | some d => dict_update options d

/-- Modelled from the spec: the OptionResolver precedence statement, for
comparison with get_options.  The resolved value of a key is the value from the
highest-precedence tier that defines it, with precedence
DEFAULT_OPTIONS < config-level < metric-level < CLI; absent tiers are skipped. -/
def highest_precedence_value (config_options local_options cli_options : Option PyDict)
    (k : String) : Option PyVal :=
  opt_first (match cli_options with | none => none | some d => alookup d k)
    (opt_first (match local_options with | none => none | some d => alookup d k)
      (opt_first (match config_options with | none => none | some d => alookup d k)
        (alookup DEFAULT_OPTIONS k)))

/-- The static per-category key-field table of log_list_map
(leadbutt.py lines 91-96). -/
def log_list_key_map : List (String × String) :=
  [("network", "interface"),
   ("diskIO", "device"),
   ("fileSys", "name"),
   ("processList", "name")]

/-- log_list_map of leadbutt.py lines 90-98: look the category up in the static
key-field table and subscript the element dictionary with the resulting field.
For a category outside the table, list_map.get returns None and the subsequent
subscription statistic_dict[None] raises KeyError, as does a missing field. -/
def log_list_map (category : String) (statistic_dict : PyDict) : Except Err PyVal :=
  match alookup log_list_key_map category with
  | none => .error .keyError
  | some field =>
      match alookup statistic_dict field with
      | none => .error .keyError
      | some v => .ok v

/-- The static two-level category and statistic unit table of unit_type_map
(leadbutt.py lines 102-188), transcribed verbatim. -/
def unit_map : List (String × List (String × String)) :=
  [("cpuUtilization",
    [("guest", "Percent"), ("irq", "Percent"), ("system", "Percent"),
     ("wait", "Percent"), ("idle", "Percent"), ("user", "Percent"),
     ("total", "Percent"), ("steal", "Percent"), ("nice", "Percent")]),
   ("loadAverageMinute",
    [("fifteen", "Count"), ("five", "Count"), ("one", "Count")]),
   ("memory",
    [("writeback", "Kilobytes"), ("hugePagesFree", "Count"),
     ("hugePagesRsvd", "Count"), ("hugePagesSurp", "Count"),
     ("hugePagesTotal", "Count"), ("cached", "Kilobytes"),
     ("hugePagesSize", "Kilobytes"), ("pageTables", "Kilobytes"),
     ("dirty", "Kilobytes"), ("mapped", "Kilobytes"), ("active", "Kilobytes"),
     ("total", "Kilobytes"), ("slab", "Kilobytes"), ("buffers", "Kilobytes")]),
   ("tasks",
    [("sleeping", "Count"), ("zombie", "Count"), ("running", "Count"),
     ("stopped", "Count"), ("total", "Count"), ("blocked", "Count")]),
   ("swap",
    [("cached", "Kilobytes"), ("total", "Kilobytes"), ("free", "Kilobytes")]),
   ("network",
    [("rx", "Bytes/Second"), ("tx", "Bytes/Second")]),
   ("diskIO",
    [("writeKbPS", "Kilobytes/Second"), ("readIOsPS", "IO/Second"),
     ("await", "Milliseconds"), ("readKbPS", "Kilobytes/Second"),
     ("rrqmPS", "IO/Second"), ("util", "Percent"),
     ("avgQueueLen", "Milliseconds"), ("tps", "Count"), ("readKb", "Kilobytes"),
     ("writeKb", "Kilobytes"), ("avgReqSz", "Kilobytes"),
     ("wrqmPS", "IO/Second"), ("writeIOsPS", "IO/Second")]),
   ("fileSys",
    [("used", "Kilobytes"), ("usedFiles", "Count"), ("usedFilePercent", "Percent"),
     ("maxFiles", "Count"), ("total", "Kilobytes"), ("usedPercent", "Percent")]),
   ("processList",
    [("vss", "Kilobytes"), ("tgid", "Count"), ("parentID", "Count"),
     ("memoryUsedPc", "Percent"), ("cpuUsedPc", "Percent"), ("id", "Count"),
     ("rss", "Kilobytes")])]

/-- unit_type_map of leadbutt.py lines 101-189: unit_map[category] raises
KeyError for a category absent from the table; within a known category a
missing statistic defaults to Count via dict.get. -/
def unit_type_map (category statistic : String) : Except Err String :=
  match alookup unit_map category with
  | none => .error .keyError
  | some m => .ok ((alookup m statistic).getD "Count")

/-- The retry policy carried by the retrying decorator: its
wait_exponential_multiplier, wait_exponential_max and stop_max_delay arguments.
kwargs.get returns None for a missing keyword, hence the optional fields. -/
structure RetryPolicy where
  wait_exponential_multiplier : Option Int
  wait_exponential_max : Option Int
  stop_max_delay : Int
deriving DecidableEq

/-- The retry decoration of get_metric_statistics (leadbutt.py lines 315-319):
wrapped by retry with the CLI backoff arguments and
stop_max_delay = Count * Period * 60 * 1000 milliseconds. -/
def get_metric_statistics_retry (interval max_interval : Option Int)
    (cli_count cli_period : Int) : Option RetryPolicy :=
  some ⟨interval, max_interval, cli_count * cli_period * 60 * 1000⟩

/-- The retry decoration of get_logs_statistics (leadbutt.py lines 330-338):
none.  The function body is a plain wrapper around get_log_events and no retry
decorator is applied to it, although its docstring states that wrapping it with
the retry decorator is its purpose. -/
def get_logs_statistics_retry : Option RetryPolicy := none

/-- The end of the metric time window (leadbutt.py line 363), datetimes as
microseconds since the epoch: utcnow() minus a timedelta of
int(time.time()) mod period seconds.  The whole-second part of now is floored
(int truncates, and epoch clocks are nonnegative) while the microsecond part of
utcnow() is kept. -/
def align_end_us (now_us : Nat) (period_sec : Int) : Int :=
  (now_us : Int) - ((now_us : Int) / 1000000 % period_sec) * 1000000

/-- The start of the metric time window (leadbutt.py line 364):
end minus period * count seconds. -/
def align_start_us (end_us : Int) (period_sec count : Int) : Int :=
  end_us - period_sec * count * 1000000

/-- A point synthesized by value_pad_results (leadbutt.py lines 302-306): the
timestamp, the fill value under the literal key Sum, and Unit Count. -/
def pad_point (t value : Int) : PyVal :=
  .dict [("Timestamp", .int t), ("Sum", .int value), ("Unit", .str "Count")]

/-- The filter test of leadbutt.py line 301 under Python 2 semantics, where
filter returns a list and an empty list is falsy: true when some result has
Timestamp equal to this_time.  (Under Python 3 the lazy filter object is always
truthy and the source would never pad; the Python 2 reading matches the
docstring of value_pad_results.) -/
def has_point_at (results : List PyVal) (t : Int) : Bool :=
  results.any fun x =>
    match x with
    | .dict d =>
        match alookup d "Timestamp" with
        | some (.int n) => n == t
        | _ => false
    | _ => false

/-- The while loop of value_pad_results (leadbutt.py lines 300-307).  The fuel
argument bounds the number of iterations; value_pad_results passes
(end - this).toNat, which is enough for every positive step (each iteration
advances this_time by step ≥ 1), so the loop always exits through the
this_time < end_time test exactly as the source loop does. -/
def pad_loop (step value : Int) : Nat → Int → Int → List PyVal → List PyVal
  | 0, _, _, results => results
  | fuel + 1, this_time, end_time, results =>
      if this_time < end_time then
        let results :=
          if has_point_at results this_time then results
          else results ++ [pad_point this_time value]
        pad_loop step value fuel (this_time + step) end_time results
      else results

/-- value_pad_results of leadbutt.py lines 284-308: strip the microsecond
component of start and end, then walk from start to end in steps of
interval * 60 seconds, appending a pad_point wherever no result carries the
expected timestamp.  Times are microseconds since the epoch; the interval is in
minutes; the source default value=0 is passed explicitly by the caller model. -/
def value_pad_results (results : List PyVal) (start_time end_time interval value : Int) :
    List PyVal :=
  let this_time := start_time - start_time % 1000000
  let end_stripped := end_time - end_time % 1000000
  pad_loop (interval * 60 * 1000000) value (end_stripped - this_time).toNat
    this_time end_stripped results

/-- ASCII lowercasing of one character, as Python str.lower acts on the ASCII
range.  Python also lowercases non-ASCII uppercase letters; no such character
appears in the claims, and the model leaves non-ASCII characters unchanged
(faithful for every character that is not an uppercase letter). -/
def py_lower (c : Char) : Char :=
  if 65 ≤ c.toNat ∧ c.toNat ≤ 90 then Char.ofNat (c.toNat + 32) else c

/-- The metric-name sanitization applied by both output paths
(leadbutt.py lines 193 and 275): replace every slash character with a dot, then
lowercase.  Both replace arguments are single characters, so the replacement is
character-wise. -/
def sanitize_metric_name (s : String) : String :=
  String.mk ((s.data.map (fun c => if c = '/' then '.' else c)).map py_lower)

/-- Percent-formatting of a template against a context dictionary, covering the
directives the source templates use: literal characters, a doubled percent, and
the named string directive of the shape percent, parenthesized key, letter s.
A key absent from the context raises KeyError; any other directive raises
ValueError; substituting a container value is not modelled (TypeError).  The
fuel argument bounds the number of calls; render_format passes length + 1,
which is enough since every call consumes at least one character. -/
def render_fmt (context : PyDict) : Nat → List Char → Except Err (List Char)
  | 0, _ => .error .valueError
  | _, [] => .ok []
  | fuel + 1, '%' :: rest =>
      match rest with
      | '%' :: rest2 =>
          match render_fmt context fuel rest2 with
          | .error e => .error e
          | .ok t => .ok ('%' :: t)
      | '(' :: rest2 =>
          let key := rest2.takeWhile (fun c => c ≠ ')')
          match rest2.dropWhile (fun c => c ≠ ')') with
          | ')' :: 's' :: tail =>
              (match get_key context (String.mk key) with
               | .error e => .error e
               | .ok v =>
                  match py_str_scalar v with
                  | .error e => .error e
                  | .ok s =>
                      match render_fmt context fuel tail with
                      | .error e => .error e
                      | .ok t => .ok (s.data ++ t))
          | _ => .error .valueError
      | _ => .error .valueError
  | fuel + 1, c :: rest =>
      match render_fmt context fuel rest with
      | .error e => .error e
      | .ok t => .ok (c :: t)

/-- formatter % context for a string template. -/
def render_format (fmt : String) (context : PyDict) : Except Err String :=
  match render_fmt context (fmt.data.length + 1) fmt.data with
  | .error e => .error e
  | .ok l => .ok (String.mk l)

/-- One emitted output line, structured: the sanitized metric-name segment, the
formatted value, and the timestamp the line carries.  The wire form is
name, space, value, space, timestamp, newline. -/
structure OutLine where
  name : String
  value : String
  time : Int
deriving DecidableEq

/-- The dimension reduction at the top of output_results
(leadbutt.py lines 262-265): list(metric[Dimensions].values())[0] under a
try/except that catches only AttributeError.  A missing Dimensions key raises
KeyError before the attribute access, so it propagates; a non-mapping value has
no values method, raising the caught AttributeError, giving the empty string;
an empty mapping raises an uncaught IndexError on the subscription. -/
def resolve_dimension (metric : PyDict) : Except Err PyVal :=
  match alookup metric "Dimensions" with
  | none => .error .keyError
  | some (.dict []) => .error .indexError
  | some (.dict ((_, v) :: _)) => .ok v
  | some _ => .ok (.str "")

/-- The per-result statistic keys of output_results (leadbutt.py lines 267-269):
metric[Statistics], wrapped in a singleton list when it is not a list. -/
def stat_keys_of (metric : PyDict) : Except Err (List PyVal) :=
  match get_key metric "Statistics" with
  | .error e => .error e
  | .ok v => .ok (py_as_list v)

/-- timegm(timestamp.timetuple()): the timestamp in whole seconds, microseconds
dropped (timetuple floors). -/
def timegm_us (t : Int) : Int := t / 1000000

/-- The inner statistics loop of output_results (leadbutt.py lines 270-281) for
one result: set statistic and Unit in the shared context, render the formatter,
sanitize, and emit one line carrying result[statistic] and the floored
timestamp.  The context is threaded because the source mutates one dictionary. -/
def output_result_stats (formatter : String) (result_d : PyDict) :
    PyDict → List PyVal → Except Err (PyDict × List OutLine)
  | context, [] => .ok (context, [])
  | context, stat :: rest =>
      let context := set_key context "statistic" stat
      match get_key result_d "Unit" with
      | .error e => .error e
      | .ok unit =>
          let context := set_key context "Unit" unit
          match render_format formatter context with
          | .error e => .error e
          | .ok rendered =>
              (match stat with
               | .str stat_name =>
                  (match get_key result_d stat_name with
                   | .error e => .error e
                   | .ok value =>
                      match py_str_scalar value with
                      | .error e => .error e
                      | .ok value_s =>
                          match get_key result_d "Timestamp" with
                          | .error e => .error e
                          | .ok ts =>
                              match as_int ts with
                              | .error e => .error e
                              | .ok ts_us =>
                                  match output_result_stats formatter result_d context rest with
                                  | .error e => .error e
                                  | .ok (context, lines) =>
                                      .ok (context,
                                        ⟨sanitize_metric_name rendered, value_s, timegm_us ts_us⟩ :: lines))
               | _ => .error .keyError)

/-- The outer results loop of output_results (leadbutt.py lines 266-281). -/
def output_results_loop (formatter : String) (metric : PyDict) :
    PyDict → List PyVal → Except Err (PyDict × List OutLine)
  | context, [] => .ok (context, [])
  | context, result :: rest =>
      match as_dict result with
      | .error e => .error e
      | .ok rd =>
          match stat_keys_of metric with
          | .error e => .error e
          | .ok stat_keys =>
              match output_result_stats formatter rd context stat_keys with
              | .error e => .error e
              | .ok (context, lines) =>
                  match output_results_loop formatter metric context rest with
                  | .error e => .error e
                  | .ok (context, more) => .ok (context, lines ++ more)

/-- output_results of leadbutt.py lines 254-281: fetch the formatter, copy the
metric dictionary as the formatting context, reduce Dimensions to a single
dimension value, then emit one line per result and statistic. -/
def output_results (results : List PyVal) (metric : PyDict) (options : PyDict) :
    Except Err (List OutLine) :=
  match get_key options "Formatter" with
  | .error e => .error e
  | .ok fv =>
      match as_str fv with
      | .error e => .error e
      | .ok formatter =>
          match resolve_dimension metric with
          | .error e => .error e
          | .ok dim =>
              let context := set_key metric "dimension" dim
              match output_results_loop formatter metric context results with
              | .error e => .error e
              | .ok (_, lines) => .ok lines

/-- output_log_results of leadbutt.py lines 192-199: render the formatter
against the context, sanitize, and emit one line carrying the value and the
ingestion time. -/
def emit_log_line (formatter : String) (ingestion_time : Int) (context : PyDict)
    (value : PyVal) : Except Err OutLine :=
  match render_format formatter context with
  | .error e => .error e
  | .ok rendered =>
      match py_str_scalar value with
      | .error e => .error e
      | .ok vs => .ok ⟨sanitize_metric_name rendered, vs, ingestion_time⟩

/-- The dictionary-shaped category loop of process_log_results
(leadbutt.py lines 223-233): for every statistic set Statistic in the shared
context, and for a numeric value look up the unit, set Unit, and emit a line
through options[Formatter]. -/
def process_stat_dict (options : PyDict) (category : String) (ingestion_time : Int) :
    PyDict → List (String × PyVal) → Except Err (PyDict × List OutLine)
  | context, [] => .ok (context, [])
  | context, (statistic, value) :: rest =>
      let context := set_key context "Statistic" (.str statistic)
      if is_numeric value then
        match unit_type_map category statistic with
        | .error e => .error e
        | .ok unit =>
            let context := set_key context "Unit" (.str unit)
            match get_key options "Formatter" with
            | .error e => .error e
            | .ok fv =>
                match as_str fv with
                | .error e => .error e
                | .ok formatter =>
                    match emit_log_line formatter ingestion_time context value with
                    | .error e => .error e
                    | .ok line =>
                        match process_stat_dict options category ingestion_time context rest with
                        | .error e => .error e
                        | .ok (context, more) => .ok (context, line :: more)
      else process_stat_dict options category ingestion_time context rest

/-- The statistics loop inside one list element of process_log_results
(leadbutt.py lines 241-251): like the dictionary case but emitting through
options[ListFormatter]. -/
def process_list_stats (options : PyDict) (category : String) (ingestion_time : Int) :
    PyDict → List (String × PyVal) → Except Err (PyDict × List OutLine)
  | context, [] => .ok (context, [])
  | context, (statistic, value) :: rest =>
      let context := set_key context "Statistic" (.str statistic)
      if is_numeric value then
        match unit_type_map category statistic with
        | .error e => .error e
        | .ok unit =>
            let context := set_key context "Unit" (.str unit)
            match get_key options "ListFormatter" with
            | .error e => .error e
            | .ok fv =>
                match as_str fv with
                | .error e => .error e
                | .ok formatter =>
                    match emit_log_line formatter ingestion_time context value with
                    | .error e => .error e
                    | .ok line =>
                        match process_list_stats options category ingestion_time context rest with
                        | .error e => .error e
                        | .ok (context, more) => .ok (context, line :: more)
      else process_list_stats options category ingestion_time context rest

/-- The list-shaped category loop of process_log_results
(leadbutt.py lines 235-251): for every element derive ListCategory through
log_list_map, store it in the shared context, and process the element fields. -/
def process_stat_list (options : PyDict) (category : String) (ingestion_time : Int) :
    PyDict → List PyVal → Except Err (PyDict × List OutLine)
  | context, [] => .ok (context, [])
  | context, elem :: rest =>
      match as_dict elem with
      | .error e => .error e
      | .ok ed =>
          match log_list_map category ed with
          | .error e => .error e
          | .ok lc =>
              let context := set_key context "ListCategory" lc
              match process_list_stats options category ingestion_time context ed with
              | .error e => .error e
              | .ok (context, lines) =>
                  match process_stat_list options category ingestion_time context rest with
                  | .error e => .error e
                  | .ok (context, more) => .ok (context, lines ++ more)

/-- The category loop of process_log_results (leadbutt.py lines 218-251):
MetricName is set in the shared context before the shape dispatch, and a value
that is neither a dictionary nor a list is skipped. -/
def process_categories (options : PyDict) (ingestion_time : Int) :
    PyDict → List (String × PyVal) → Except Err (PyDict × List OutLine)
  | context, [] => .ok (context, [])
  | context, (category, statistics) :: rest =>
      let context := set_key context "MetricName" (.str category)
      match statistics with
      | .dict d =>
          (match process_stat_dict options category ingestion_time context d with
           | .error e => .error e
           | .ok (context, lines) =>
              match process_categories options ingestion_time context rest with
              | .error e => .error e
              | .ok (context, more) => .ok (context, lines ++ more))
      | .list l =>
          (match process_stat_list options category ingestion_time context l with
           | .error e => .error e
           | .ok (context, lines) =>
              match process_categories options ingestion_time context rest with
              | .error e => .error e
              | .ok (context, more) => .ok (context, lines ++ more))
      | _ => process_categories options ingestion_time context rest

/-- One iteration of the results loop of process_log_results
(leadbutt.py lines 211-251): decode the ingestion time to seconds with the
floor division of Python 2, take the already-decoded message structure
(ast.literal_eval is the collaborator-provided decoder; the message field holds
the decoded value), and set Dimension and Namespace in the shared context. -/
def process_one_result (options : PyDict) (context : PyDict) (result : PyVal) :
    Except Err (PyDict × List OutLine) :=
  match as_dict result with
  | .error e => .error e
  | .ok rd =>
      match get_key rd "ingestionTime" with
      | .error e => .error e
      | .ok itv =>
          match as_int itv with
          | .error e => .error e
          | .ok it =>
              let ingestion_time := it / 1000
              match get_key rd "message" with
              | .error e => .error e
              | .ok message =>
                  match as_dict message with
                  | .error e => .error e
                  | .ok md =>
                      match get_key md "instanceID" with
                      | .error e => .error e
                      | .ok iid =>
                          let context := set_key context "Dimension" iid
                          let context := set_key context "Namespace" (.str "AWS/RDS")
                          process_categories options ingestion_time context md

/-- The results loop of process_log_results, threading the single shared
context dictionary created once at line 209 across all results. -/
def process_log_loop (options : PyDict) :
    PyDict → List PyVal → Except Err (PyDict × List OutLine)
  | context, [] => .ok (context, [])
  | context, r :: rest =>
      match process_one_result options context r with
      | .error e => .error e
      | .ok (context, lines) =>
          match process_log_loop options context rest with
          | .error e => .error e
          | .ok (context, more) => .ok (context, lines ++ more)

/-- process_log_results of leadbutt.py lines 202-251. -/
def process_log_results (results : List PyVal) (options : PyDict) :
    Except Err (List OutLine) :=
  match process_log_loop options [] results with
  | .error e => .error e
  | .ok (_, lines) => .ok lines

/-- One remote metrics-statistics call as leadbutt assembles it
(leadbutt.py lines 375-385): the bound request parameters, including the
time window in effect. -/
structure FetchCall where
  period : Int
  start_time : Int
  end_time : Int
  metric_name : PyVal
  nspace : PyVal
  statistics : PyVal
  dimensions : PyVal
  unit : Option PyVal

/-- Result mapping over Except, mirroring a Python for loop whose body can
raise: stop at the first error, otherwise collect the results in order. -/
def mapE {α β : Type} (f : α → Except Err β) : List α → Except Err (List β)
  | [] => .ok []
  | a :: as' =>
      match f a with
      | .error e => .error e
      | .ok b =>
          match mapE f as' with
          | .error e => .error e
          | .ok bs => .ok (b :: bs)

/-- metric.get(Options) for the per-metric options tier
(leadbutt.py line 357): absent gives None; a present non-mapping value would
make dict.update raise. -/
def metric_local_options (metric : PyDict) : Except Err (Option PyDict) :=
  match alookup metric "Options" with
  | none => .ok none
  | some (.dict d) => .ok (some d)
  | some _ => .error .typeError

/-- The NullIsZero opt-in of leadbutt.py lines 387-393: when the merged options
carry a NullIsZero mapping that names this metric, pad the results with
value_pad_results at the configured interval; otherwise pass them through.
Only a mapping-shaped NullIsZero is modelled. -/
def maybe_pad (options : PyDict) (metric_name : PyVal) (results : List PyVal)
    (start_time end_time : Int) : Except Err (List PyVal) :=
  match alookup options "NullIsZero" with
  | none => .ok results
  | some (.dict nz) =>
      (match metric_name with
       | .str name =>
          (match alookup nz name with
           | none => .ok results
           | some iv =>
              match as_int iv with
              | .error e => .error e
              | .ok interval => .ok (value_pad_results results start_time end_time interval 0))
       | _ => .ok results)
  | some _ => .error .typeError

/-- One iteration of the inner per-name loop of leadbutt
(leadbutt.py lines 371-396): copy the metric with MetricName swapped, assemble
the fetch from the spec fields and the window computed for the enclosing spec,
fetch (the remote call is the injected fetch_fn capability), optionally pad,
and format the results into output lines. -/
def process_one_name (fetch_fn : FetchCall → List PyVal) (options metric : PyDict)
    (period_sec : Int) (start_time end_time : Int) (unit : Option PyVal)
    (name : PyVal) : Except Err (FetchCall × List OutLine) :=
  let this_metric := set_key metric "MetricName" name
  match get_key metric "Namespace" with
  | .error e => .error e
  | .ok nsp =>
      match get_key metric "Statistics" with
      | .error e => .error e
      | .ok stats =>
          match get_key metric "Dimensions" with
          | .error e => .error e
          | .ok dims =>
              let fc : FetchCall := ⟨period_sec, start_time, end_time, name, nsp, stats, dims, unit⟩
              let results := fetch_fn fc
              match maybe_pad options name results start_time end_time with
              | .error e => .error e
              | .ok padded =>
                  match output_results padded this_metric options with
                  | .error e => .error e
                  | .ok lines => .ok (fc, lines)

/-- One iteration of the Metrics loop of leadbutt (leadbutt.py lines 355-396):
resolve the options, compute the time window once from the clock reading for
this spec (lines 363-364, before the per-name loop), then expand the
MetricName list into one fetch per name against that single window.  The clock
yields microseconds since the epoch for each successive window computation. -/
def process_metric_spec (clock : Nat → Nat) (fetch_fn : FetchCall → List PyVal)
    (config_options cli_options : Option PyDict) (tick : Nat) (metric : PyDict) :
    Except Err (List (FetchCall × List OutLine)) :=
  match metric_local_options metric with
  | .error e => .error e
  | .ok lo =>
      let options := get_options config_options lo cli_options
      match get_key options "Period" with
      | .error e => .error e
      | .ok pv =>
          match as_int pv with
          | .error e => .error e
          | .ok p =>
              match get_key options "Count" with
              | .error e => .error e
              | .ok cv =>
                  match as_int cv with
                  | .error e => .error e
                  | .ok c =>
                      let period_local := p * 60
                      let end_time := align_end_us (clock tick) period_local
                      let start_time := align_start_us end_time period_local c
                      let unit := alookup metric "Unit"
                      match get_key metric "MetricName" with
                      | .error e => .error e
                      | .ok names =>
                          mapE
                            (process_one_name fetch_fn options metric period_local
                              start_time end_time unit)
                            (py_as_list names)

/-- The Metrics section of leadbutt (leadbutt.py lines 354-396): process the
configured metric specs in order; the clock is read once per spec. -/
def leadbutt_metrics (clock : Nat → Nat) (fetch_fn : FetchCall → List PyVal)
    (config_options cli_options : Option PyDict) :
    Nat → List PyDict → Except Err (List (FetchCall × List OutLine))
  | _, [] => .ok []
  | tick, m :: rest =>
      match process_metric_spec clock fetch_fn config_options cli_options tick m with
      | .error e => .error e
      | .ok rs =>
          match leadbutt_metrics clock fetch_fn config_options cli_options (tick + 1) rest with
          | .error e => .error e
          | .ok more => .ok (rs ++ more)

/-- The stop_max_delay bound of the retry decoration
(leadbutt.py line 319): Count * Period * 60 * 1000 milliseconds, Period in
minutes. -/
def stop_max_delay_ms (cli_count cli_period : Nat) : Nat :=
  cli_count * cli_period * 60 * 1000

/-- Modelled from the spec: the RetryingFetcher backoff schedule of section
4.3.  The retry loop itself is provided by the external retrying package and
its code is not part of this repository; only the parameter binding of
leadbutt.py lines 315-319 is source.  The wait after the i-th failure starts at
the initial wait and doubles on each subsequent failure, capped at the maximum
wait. -/
def backoff_wait (initial max_wait : Nat) (i : Nat) : Nat :=
  min (initial * 2 ^ i) max_wait

/-- Modelled from the spec: the deadline-bounded retry loop of RetryingFetcher
(section 4.3).  Attempts are instantaneous at the model times; call i reports
whether the i-th attempt succeeds; after a failure the fetcher waits the
scheduled backoff and retries, except that it gives up when the next attempt
would start past the deadline.  Each recursive call consumes one fuel;
fetch_with_retry passes deadline + 1 fuel, which suffices whenever the initial
and maximum waits are positive. -/
inductive FetchOutcome where
  | success (attempt : Nat) (time : Nat)
  | exhausted (time : Nat)
deriving DecidableEq

/-- The starting time of a success, or the give-up time of an exhaustion. -/
def outcome_time : FetchOutcome → Nat
  | .success _ t => t
  | .exhausted t => t

/-- Modelled from the spec: the retry loop (see backoff_wait).  The arguments
after the deadline are the remaining fuel, the attempt index, and the current
time (the start time of the pending attempt). -/
def retry_fetch (call : Nat → Bool) (initial max_wait deadline : Nat) :
    Nat → Nat → Nat → FetchOutcome
  | 0, _, t => .exhausted t
  | fuel + 1, i, t =>
      if call i then .success i t
      else
        let next := t + backoff_wait initial max_wait i
        if deadline < next then .exhausted t
        else retry_fetch call initial max_wait deadline fuel (i + 1) next

/-- Modelled from the spec: one deadline-bounded retried fetch, started at
time zero with attempt zero. -/
def fetch_with_retry (call : Nat → Bool) (initial max_wait deadline : Nat) :
    FetchOutcome :=
  retry_fetch call initial max_wait deadline (deadline + 1) 0 0

/-- A strictly advancing microsecond clock for the concrete two-name run: the
first window computation sees 60 s sharp, a recomputation would see 61.5 s. -/
def clk_c2 : Nat → Nat := fun i => 60000000 + i * 1500000

/-- A remote capability returning no data points. -/
def fetch_empty : FetchCall → List PyVal := fun _ => []

/-- A metric spec whose MetricName is the two-element list A, B. -/
def metric_c2 : PyDict :=
  [("Namespace", .str "AWS/EC2"),
   ("MetricName", .list [.str "A", .str "B"]),
   ("Dimensions", .dict [("InstanceId", .str "i-1")]),
   ("Statistics", .str "Sum")]

/-- CLI options Period 1, Count 5 as main() always provides them. -/
def cli_c2 : PyDict := [("Period", .int 1), ("Count", .int 5)]

/-- The fetch the concrete run performs for name A. -/
def fc_a : FetchCall :=
  ⟨60, -240000000, 60000000, .str "A", .str "AWS/EC2", .str "Sum",
   .dict [("InstanceId", .str "i-1")], none⟩

/-- The fetch the concrete run performs for name B. -/
def fc_b : FetchCall :=
  ⟨60, -240000000, 60000000, .str "B", .str "AWS/EC2", .str "Sum",
   .dict [("InstanceId", .str "i-1")], none⟩

/-- A metric whose configured Formatter holds a non-ASCII character. -/
def metric_c7 : PyDict :=
  [("Namespace", .str "AWS/EC2"),
   ("MetricName", .str "M"),
   ("Dimensions", .dict [("InstanceId", .str "i-1")]),
   ("Statistics", .str "Sum")]

/-- Options carrying the non-ASCII constant formatter. -/
def options_c7 : PyDict := [("Formatter", .str "é")]

/-- One ordinary result point. -/
def result_c7 : PyVal :=
  .dict [("Timestamp", .int 0), ("Sum", .int 1), ("Unit", .str "Count")]

/-- Options for the enhanced-monitoring runs: the scalar formatter references
ListCategory, the list formatter only the statistic. -/
def options_c10 : PyDict :=
  [("Formatter", .str "f.%(ListCategory)s.%(Statistic)s"),
   ("ListFormatter", .str "l.%(Statistic)s")]

/-- A log event whose message carries a list-shaped diskIO element with device
xvda. -/
def ev_disk_a : PyVal :=
  .dict [("ingestionTime", .int 1000),
         ("message", .dict
           [("instanceID", .str "db-1"),
            ("diskIO", .list [.dict [("device", .str "xvda"), ("util", .int 3)]])])]

/-- The same event with device xvdb instead. -/
def ev_disk_b : PyVal :=
  .dict [("ingestionTime", .int 1000),
         ("message", .dict
           [("instanceID", .str "db-1"),
            ("diskIO", .list [.dict [("device", .str "xvdb"), ("util", .int 3)]])])]

/-- A dictionary-shaped cpuUtilization event, identical in both sequences. -/
def ev_cpu : PyVal :=
  .dict [("ingestionTime", .int 2000),
         ("message", .dict
           [("instanceID", .str "db-1"),
            ("cpuUtilization", .dict [("user", .int 1)])])]

/-- The cleanliness invariant on a metric-name segment: no slash character and
no ASCII uppercase letter. -/
def name_clean (s : String) : Prop :=
  ∀ c ∈ s.data, c ≠ '/' ∧ ¬(65 ≤ c.toNat ∧ c.toNat ≤ 90)

/-- True when every character of the string is ASCII. -/
def ascii_only (s : String) : Bool :=
  s.data.all fun c => c.toNat < 128

theorem alookup_set_key {α : Type} (d : List (String × α)) (k : String) (v : α)
    (k' : String) :
    alookup (set_key d k v) k' = if k = k' then some v else alookup d k' := by
  induction d with
  | nil => simp [set_key, alookup]
  | cons kv rest ih =>
      obtain ⟨k0, v0⟩ := kv
      by_cases h : k0 = k
      · subst h
        simp only [set_key, if_pos rfl, alookup]
        by_cases h' : k0 = k'
        · simp [h']
        · simp [h']
      · simp only [set_key, if_neg h, alookup]
        by_cases h' : k0 = k'
        · have : ¬ k = k' := fun he => h (he ▸ h')
          simp [h', this]
        · simp [h', ih]

theorem alookup_eq_none_of_not_mem {α : Type} (d : List (String × α)) (k : String)
    (h : k ∉ dict_keys d) : alookup d k = none := by
  induction d with
  | nil => simp [alookup]
  | cons kv rest ih =>
      obtain ⟨k0, v0⟩ := kv
      simp only [dict_keys, List.map_cons, List.mem_cons, not_or] at h
      have : ¬ k0 = k := fun he => h.1 he.symm
      simp only [alookup, if_neg this, ih (by simpa [dict_keys] using h.2)]

theorem alookup_dict_update {α : Type} (o : List (String × α))
    (h : (dict_keys o).Nodup) (d : List (String × α)) (k : String) :
    alookup (dict_update d o) k = opt_first (alookup o k) (alookup d k) := by
  induction o generalizing d with
  | nil => simp [dict_update, alookup, opt_first, List.foldl]
  | cons kv rest ih =>
      obtain ⟨k0, v0⟩ := kv
      simp only [dict_keys, List.map_cons, List.nodup_cons] at h
      have hstep : dict_update d ((k0, v0) :: rest) = dict_update (set_key d k0 v0) rest := rfl
      rw [hstep, ih (by simpa [dict_keys] using h.2), alookup_set_key]
      by_cases hk : k0 = k
      · subst hk
        have : alookup rest k0 = none :=
          alookup_eq_none_of_not_mem rest k0 (by simpa [dict_keys] using h.1)
        simp [alookup, this, opt_first]
      · simp [alookup, hk, opt_first]

theorem alookup_opt_update (o : Option PyDict)
    (h : ∀ x, o = some x → (dict_keys x).Nodup) (d : PyDict) (k : String) :
    alookup (match o with | none => d | some x => dict_update d x) k
      = opt_first (match o with | none => none | some x => alookup x k) (alookup d k) := by
  cases o with
  | none => simp [opt_first]
  | some x => simpa [opt_first] using alookup_dict_update x (h x rfl) d k

/-- Claim C6: get_options resolves every key to the value from the
highest-precedence tier that defines it, with precedence
DEFAULT_OPTIONS < config-level < metric-level < CLI; absent tiers are skipped,
and the merge is a shallow per-key overwrite.  The well-formedness hypotheses
say the given dictionaries carry no duplicate key, true of every Python
dictionary. -/
theorem get_options_resolves_highest_tier
    (config_options local_options cli_options : Option PyDict)
    (hco : ∀ d, config_options = some d → (dict_keys d).Nodup)
    (hlo : ∀ d, local_options = some d → (dict_keys d).Nodup)
    (hcli : ∀ d, cli_options = some d → (dict_keys d).Nodup)
    (k : String) :
    alookup (get_options config_options local_options cli_options) k
      = highest_precedence_value config_options local_options cli_options k := by
  unfold get_options highest_precedence_value
  rw [alookup_opt_update cli_options hcli, alookup_opt_update local_options hlo,
    alookup_opt_update config_options hco]

/-- Witness for C6: a concrete three-tier resolution.  Period is defined at the
config and metric tiers (the metric tier wins over the config tier and the
defaults), Count only at the CLI tier, Formatter only in the defaults. -/
theorem get_options_resolves_highest_tier_witness :
    (dict_keys [("Period", PyVal.int 2)]).Nodup ∧
    (dict_keys [("Period", PyVal.int 3)]).Nodup ∧
    (dict_keys [("Count", PyVal.int 9)]).Nodup ∧
    alookup (get_options (some [("Period", PyVal.int 2)]) (some [("Period", PyVal.int 3)])
        (some [("Count", PyVal.int 9)])) "Period"
      = highest_precedence_value (some [("Period", PyVal.int 2)])
          (some [("Period", PyVal.int 3)]) (some [("Count", PyVal.int 9)]) "Period" :=
  ⟨by decide, by decide, by decide,
   get_options_resolves_highest_tier (some [("Period", PyVal.int 2)])
     (some [("Period", PyVal.int 3)]) (some [("Count", PyVal.int 9)])
     (fun d hd => by cases hd; decide) (fun d hd => by cases hd; decide)
     (fun d hd => by cases hd; decide) "Period"⟩

/-- Claim C1: the code bug exhibited.  The metrics-statistics wrapper is
decorated with the retry policy bound from the CLI options, while the
log-events wrapper get_logs_statistics carries no retry decoration at all, so
the two remote calls never run under the same retry policy. -/
theorem logs_call_not_retried :
    get_logs_statistics_retry = none ∧
    ∀ (i m : Option Int) (c p : Int),
      get_metric_statistics_retry i m c p ≠ get_logs_statistics_retry := by
  refine ⟨rfl, ?_⟩
  intro i m c p h
  simp [get_metric_statistics_retry, get_logs_statistics_retry] at h

/-- Claim C4 counterexample: a category absent from the static unit table does
not default to Count; unit_map[category] raises KeyError. -/
theorem unit_type_map_unknown_category_raises :
    unit_type_map "bogusCategory" "user" = .error .keyError ∧
    (Except.error Err.keyError : Except Err String) ≠ .ok "Count" := by
  exact ⟨rfl, fun h => Except.noConfusion h⟩

/-- Claim C4 amended: within a category present in the static unit table a
missing statistic defaults to Count and a present pair returns the table entry
(cpuUtilization with user yields Percent); a category absent from the table
raises KeyError instead of defaulting. -/
theorem unit_type_map_defaults :
    (∀ category m statistic, alookup unit_map category = some m →
       alookup m statistic = none → unit_type_map category statistic = .ok "Count") ∧
    (∀ category statistic, alookup unit_map category = none →
       unit_type_map category statistic = .error .keyError) ∧
    unit_type_map "cpuUtilization" "user" = .ok "Percent" := by
  refine ⟨?_, ?_, rfl⟩
  · intro category m statistic h1 h2
    simp [unit_type_map, h1, h2]
  · intro category statistic h1
    simp [unit_type_map, h1]

/-- Witness for C4: the defaulting inside the known category cpuUtilization at
a statistic absent from its table, and the KeyError at an unknown category. -/
theorem unit_type_map_defaults_witness :
    unit_type_map "cpuUtilization" "bogusStat" = .ok "Count" ∧
    unit_type_map "noSuchCategory" "x" = .error .keyError :=
  ⟨unit_type_map_defaults.1 "cpuUtilization" _ "bogusStat" rfl rfl,
   unit_type_map_defaults.2.1 "noSuchCategory" "x" rfl⟩

/-- Claim C5 counterexample: at now = 0.5 s past the epoch with a 60 s period,
the window end keeps the 500000 microsecond sub-second component rather than
being zero, and differs from now minus now mod period. -/
theorem align_end_subsecond_counterexample :
    align_end_us 500000 60 % 1000000 ≠ 0 ∧
    align_end_us 500000 60 ≠ (500000 : Int) - 500000 % (60 * 1000000) := by
  decide

/-- Claim C5 amended: the window end subtracts only whole seconds, namely the
floored-second clock reading modulo the period, so its sub-second component
equals that of now (zero only when now has none); the end never exceeds now and
lags it by less than one period; and end minus start is exactly
period * count. -/
theorem align_window_amended (now_us : Nat) (p c : Int) (hp : 0 < p) :
    align_end_us now_us p % 1000000 = (now_us : Int) % 1000000 ∧
    align_end_us now_us p ≤ (now_us : Int) ∧
    (now_us : Int) - align_end_us now_us p < p * 1000000 ∧
    align_end_us now_us p - align_start_us (align_end_us now_us p) p c
      = p * c * 1000000 := by
  have hq0 : 0 ≤ (now_us : Int) / 1000000 % p := Int.emod_nonneg _ (by omega)
  have hqp : (now_us : Int) / 1000000 % p < p := Int.emod_lt_of_pos _ hp
  unfold align_end_us align_start_us
  refine ⟨by omega, by omega, by nlinarith, sub_sub_cancel _ _⟩

/-- Witness for C5 at now = 0.5 s, period 60 s, count 5. -/
theorem align_window_amended_witness :
    (0 : Int) < 60 ∧
    (align_end_us 500000 60 % 1000000 = ((500000 : Nat) : Int) % 1000000 ∧
     align_end_us 500000 60 ≤ ((500000 : Nat) : Int) ∧
     ((500000 : Nat) : Int) - align_end_us 500000 60 < 60 * 1000000 ∧
     align_end_us 500000 60 - align_start_us (align_end_us 500000 60) 60 5
       = 60 * 5 * 1000000) :=
  ⟨by decide, align_window_amended 500000 60 5 (by decide)⟩

theorem has_point_at_append (a b : List PyVal) (t : Int) :
    has_point_at (a ++ b) t = (has_point_at a t || has_point_at b t) := by
  simp [has_point_at, List.any_append]

theorem has_point_at_pad_point (s v t : Int) :
    has_point_at [pad_point s v] t = (s == t) := by
  simp [has_point_at, pad_point, alookup]

theorem pad_loop_superset (step v : Int) (p : PyVal) :
    ∀ (fuel : Nat) (this_time end_time : Int) (acc : List PyVal),
      p ∈ acc → p ∈ pad_loop step v fuel this_time end_time acc := by
  intro fuel
  induction fuel with
  | zero => intro this_time end_time acc h; simpa [pad_loop] using h
  | succ fuel ih =>
      intro this_time end_time acc h
      simp only [pad_loop]
      split
      · apply ih
        split
        · exact h
        · exact List.mem_append_left _ h
      · exact h

theorem pad_loop_mem (step v : Int) (hstep : 1 ≤ step) :
    ∀ (k fuel : Nat) (this_time end_time : Int) (acc : List PyVal),
      this_time + (k : Int) * step < end_time →
      end_time - this_time ≤ (fuel : Int) →
      has_point_at acc (this_time + (k : Int) * step) = false →
      pad_point (this_time + (k : Int) * step) v ∈
        pad_loop step v fuel this_time end_time acc := by
  intro k
  induction k with
  | zero =>
      intro fuel this_time end_time acc hlt hfuel hmiss
      rw [Nat.cast_zero, zero_mul, add_zero] at hlt hmiss ⊢
      cases fuel with
      | zero =>
          exfalso
          rw [Nat.cast_zero] at hfuel
          omega
      | succ fuel =>
          have hpl : pad_loop step v (fuel + 1) this_time end_time acc
              = pad_loop step v fuel (this_time + step) end_time
                  (acc ++ [pad_point this_time v]) := by
            simp [pad_loop, if_pos hlt, hmiss]
          rw [hpl]
          exact pad_loop_superset step v _ fuel (this_time + step) end_time _
            (List.mem_append_right _ (List.mem_singleton.mpr rfl))
  | succ k ih =>
      intro fuel this_time end_time acc hlt hfuel hmiss
      have hcast : ((k + 1 : Nat) : Int) = (k : Int) + 1 := by push_cast; ring
      have hklt : this_time + ((k : Int) + 1) * step < end_time := by
        rw [hcast] at hlt; exact hlt
      have hstep_pos : (0 : Int) < ((k : Int) + 1) * step := by positivity
      have hthis : this_time < end_time := by nlinarith
      have harith : this_time + step + (k : Int) * step
          = this_time + ((k : Int) + 1) * step := by ring
      cases fuel with
      | zero =>
          exfalso
          rw [Nat.cast_zero] at hfuel
          omega
      | succ fuel =>
          have hfuel' : end_time - (this_time + step) ≤ (fuel : Int) := by
            push_cast at hfuel
            omega
          cases hacc : has_point_at acc this_time with
          | true =>
              have hpl : pad_loop step v (fuel + 1) this_time end_time acc
                  = pad_loop step v fuel (this_time + step) end_time acc := by
                simp [pad_loop, if_pos hthis, hacc]
              have hmiss' : has_point_at acc (this_time + step + (k : Int) * step) = false := by
                rw [harith, ← hcast]
                exact hmiss
              have hres := ih fuel (this_time + step) end_time acc
                (by rw [harith]; exact hklt) hfuel' hmiss'
              rw [hpl, hcast, ← harith]
              exact hres
          | false =>
              have hpl : pad_loop step v (fuel + 1) this_time end_time acc
                  = pad_loop step v fuel (this_time + step) end_time
                      (acc ++ [pad_point this_time v]) := by
                simp [pad_loop, if_pos hthis, hacc]
              have hmiss' : has_point_at (acc ++ [pad_point this_time v])
                  (this_time + step + (k : Int) * step) = false := by
                rw [harith, has_point_at_append, has_point_at_pad_point]
                have h1 : has_point_at acc (this_time + ((k : Int) + 1) * step) = false := by
                  rw [← hcast]; exact hmiss
                have h2 : (this_time == this_time + ((k : Int) + 1) * step) = false := by
                  simp only [beq_eq_false_iff_ne, ne_eq]
                  intro he
                  have hz : ((k : Int) + 1) * step = 0 := by linarith
                  exact (ne_of_gt hstep_pos) hz
                simp [h1, h2]
              have hres := ih fuel (this_time + step) end_time
                (acc ++ [pad_point this_time v])
                (by rw [harith]; exact hklt) hfuel' hmiss'
              rw [hpl, hcast, ← harith]
              exact hres

/-- Claim C3 counterexample: the synthesized points do not use the designated
statistic key of the metric.  In the 5-point scenario every synthesized point
records the fill value under the literal key Sum and carries nothing under any
other designated statistic such as Average, so for a metric whose designated
statistic is Average the claim fails. -/
theorem value_pad_results_sum_key_counterexample :
    (value_pad_results [] 60000000 360000000 1 0).length = 5 ∧
    (value_pad_results [] 60000000 360000000 1 0).all
      (fun p => match p with
        | .dict d => (alookup d "Average").isNone && (alookup d "Sum").isSome
        | _ => false) = true := by
  exact ⟨rfl, rfl⟩

/-- Claim C3 amended: after stripping sub-second precision from start and end,
for every expected timestamp t = start, start + interval, ... strictly below
end such that no input point has Timestamp t, the result contains the
synthesized point with Timestamp t, the fill value under the fixed key Sum,
and Unit Count; in particular, for start = T0, end = T0 + 5 min, interval one
minute and an empty input list, the output is exactly the 5 synthesized points
at T0 through T0 + 4 min, each carrying the fill value. -/
theorem value_pad_results_fills_missing :
    (∀ (points : List PyVal) (start_time end_time interval value : Int) (k : Nat),
       1 ≤ interval →
       (start_time - start_time % 1000000) + (k : Int) * (interval * 60 * 1000000)
         < end_time - end_time % 1000000 →
       has_point_at points
         ((start_time - start_time % 1000000) + (k : Int) * (interval * 60 * 1000000))
         = false →
       pad_point
         ((start_time - start_time % 1000000) + (k : Int) * (interval * 60 * 1000000))
         value
         ∈ value_pad_results points start_time end_time interval value) ∧
    value_pad_results [] 60000000 360000000 1 0
      = [pad_point 60000000 0, pad_point 120000000 0, pad_point 180000000 0,
         pad_point 240000000 0, pad_point 300000000 0] := by
  constructor
  · intro points start_time end_time interval value k hint hlt hmiss
    have hstep : (1 : Int) ≤ interval * 60 * 1000000 := by nlinarith
    exact pad_loop_mem (interval * 60 * 1000000) value hstep k
      ((end_time - end_time % 1000000) - (start_time - start_time % 1000000)).toNat
      (start_time - start_time % 1000000) (end_time - end_time % 1000000) points
      hlt (Int.self_le_toNat _) hmiss
  · rfl

/-- Witness for C3: the expected timestamp at k = 1 inside an empty result set
is synthesized with fill value 7. -/
theorem value_pad_results_fills_missing_witness :
    (1 : Int) ≤ 1 ∧
    ((0 : Int) - 0 % 1000000) + ((1 : Nat) : Int) * (1 * 60 * 1000000)
      < 120000000 - (120000000 : Int) % 1000000 ∧
    has_point_at []
      (((0 : Int) - 0 % 1000000) + ((1 : Nat) : Int) * (1 * 60 * 1000000)) = false ∧
    pad_point (((0 : Int) - 0 % 1000000) + ((1 : Nat) : Int) * (1 * 60 * 1000000)) 7
      ∈ value_pad_results [] 0 120000000 1 7 :=
  ⟨by decide, by decide, rfl,
   value_pad_results_fills_missing.1 [] 0 120000000 1 7 1 (by decide) (by decide) rfl⟩

theorem retry_fetch_time_le (call : Nat → Bool) (initial max_wait deadline : Nat) :
    ∀ (fuel i t : Nat), t ≤ deadline →
      outcome_time (retry_fetch call initial max_wait deadline fuel i t) ≤ deadline := by
  intro fuel
  induction fuel with
  | zero => intro i t ht; simpa [retry_fetch, outcome_time] using ht
  | succ fuel ih =>
      intro i t ht
      simp only [retry_fetch]
      split
      · simpa [outcome_time] using ht
      · split
        · simpa [outcome_time] using ht
        · rename_i hnext
          exact ih _ _ (by omega)

theorem retry_fetch_exhausts (initial max_wait deadline : Nat)
    (hi : 0 < initial) (hm : 0 < max_wait) :
    ∀ (fuel i t : Nat), t ≤ deadline → deadline - t < fuel →
      ∃ t', retry_fetch (fun _ => false) initial max_wait deadline fuel i t
        = .exhausted t' := by
  intro fuel
  induction fuel with
  | zero => intro i t ht hf; exact absurd hf (by omega)
  | succ fuel ih =>
      intro i t ht hf
      have hpow : 0 < initial * 2 ^ i := Nat.mul_pos hi (Nat.pos_pow_of_pos i (by norm_num))
      have hw : 1 ≤ backoff_wait initial max_wait i := by
        unfold backoff_wait
        omega
      simp only [retry_fetch, Bool.false_eq_true, if_false]
      split
      · exact ⟨t, rfl⟩
      · rename_i hnext
        exact ih _ _ (by omega) (by omega)

/-- Claim C9: the backoff schedule of the retried fetch and its deadline bound.
The wait after the first failure is the initial wait (when it is below the
cap), doubles after each subsequent failure while the doubled wait stays below
the cap, and never exceeds the cap; under the source deadline
Count * Period * 60 * 1000 ms no attempt starts past the deadline and every
outcome, success or exhaustion, is reached by the deadline; and an
always-failing call ends in exhaustion.  The retry loop is modelled from the
spec since the retrying package is outside the repository; the deadline
formula and the backoff parameters are the source bindings of
leadbutt.py lines 315-319. -/
theorem retried_fetch_backoff_and_deadline
    (cli_count cli_period initial max_wait : Nat)
    (hi : 0 < initial) (hm : 0 < max_wait) :
    (initial ≤ max_wait → backoff_wait initial max_wait 0 = initial) ∧
    (∀ i, 2 * backoff_wait initial max_wait i ≤ max_wait →
       backoff_wait initial max_wait (i + 1) = 2 * backoff_wait initial max_wait i) ∧
    (∀ i, backoff_wait initial max_wait i ≤ max_wait) ∧
    (∀ call : Nat → Bool,
       outcome_time (fetch_with_retry call initial max_wait
           (stop_max_delay_ms cli_count cli_period))
         ≤ stop_max_delay_ms cli_count cli_period) ∧
    (∃ t, fetch_with_retry (fun _ => false) initial max_wait
        (stop_max_delay_ms cli_count cli_period) = .exhausted t) := by
  refine ⟨?_, ?_, ?_, ?_, ?_⟩
  · intro hle
    simp [backoff_wait]
    omega
  · intro i hdouble
    have hpow : initial * 2 ^ (i + 1) = 2 * (initial * 2 ^ i) := by ring
    unfold backoff_wait at hdouble ⊢
    omega
  · intro i
    exact min_le_right _ _
  · intro call
    exact retry_fetch_time_le call initial max_wait _ _ 0 0 (Nat.zero_le _)
  · exact retry_fetch_exhausts initial max_wait _ hi hm _ 0 0 (Nat.zero_le _) (by omega)

/-- Witness for C9 at the CLI defaults: Count 5, Period 1 minute, initial wait
50 ms, maximum wait 4000 ms. -/
theorem retried_fetch_backoff_and_deadline_witness :
    (50 ≤ 4000 → backoff_wait 50 4000 0 = 50) ∧
    (∀ i, 2 * backoff_wait 50 4000 i ≤ 4000 →
       backoff_wait 50 4000 (i + 1) = 2 * backoff_wait 50 4000 i) ∧
    (∀ i, backoff_wait 50 4000 i ≤ 4000) ∧
    (∀ call : Nat → Bool,
       outcome_time (fetch_with_retry call 50 4000 (stop_max_delay_ms 5 1))
         ≤ stop_max_delay_ms 5 1) ∧
    (∃ t, fetch_with_retry (fun _ => false) 50 4000 (stop_max_delay_ms 5 1)
        = .exhausted t) :=
  retried_fetch_backoff_and_deadline 5 1 50 4000 (by decide) (by decide)

theorem char_ofNat_toNat (n : Nat) (h : n.isValidChar) : (Char.ofNat n).toNat = n := by
  simp [Char.ofNat, h, Char.ofNatAux, Char.toNat, UInt32.toNat, UInt32.ofNatCore]

theorem py_lower_ne_slash (c : Char) (h : c ≠ '/') : py_lower c ≠ '/' := by
  unfold py_lower
  split
  · rename_i hc
    intro he
    have htn := congrArg Char.toNat he
    rw [char_ofNat_toNat _ (by left; omega)] at htn
    have h47 : ('/' : Char).toNat = 47 := rfl
    omega
  · exact h

theorem py_lower_not_upper (c : Char) :
    ¬(65 ≤ (py_lower c).toNat ∧ (py_lower c).toNat ≤ 90) := by
  unfold py_lower
  split
  · rename_i hc
    rw [char_ofNat_toNat _ (by left; omega)]
    omega
  · rename_i hc
    push_neg at hc
    omega

theorem sanitize_name_clean (s : String) : name_clean (sanitize_metric_name s) := by
  intro c hc
  simp only [sanitize_metric_name] at hc
  obtain ⟨b, hb, rfl⟩ := List.mem_map.mp hc
  obtain ⟨a, _, rfl⟩ := List.mem_map.mp hb
  refine ⟨py_lower_ne_slash _ ?_, py_lower_not_upper _⟩
  by_cases ha : a = '/'
  · simp [ha]
  · simp [ha]

theorem output_result_stats_clean (formatter : String) (rd : PyDict) :
    ∀ (stat_list : List PyVal) (context context' : PyDict) (lines : List OutLine),
      output_result_stats formatter rd context stat_list = .ok (context', lines) →
      ∀ l ∈ lines, name_clean l.name := by
  intro stat_list
  induction stat_list with
  | nil =>
      intro context context' lines h l hl
      simp only [output_result_stats] at h
      cases h
      simp at hl
  | cons stat rest ih =>
      intro context context' lines h l hl
      simp only [output_result_stats] at h
      repeat' split at h
      all_goals first
        | exact Except.noConfusion h
        | (injection h with h'
           cases h'
           rcases List.mem_cons.mp hl with rfl | hmem
           · exact sanitize_name_clean _
           · exact ih _ _ _ (by assumption) l hmem)

theorem output_results_loop_clean (formatter : String) (metric : PyDict) :
    ∀ (results : List PyVal) (context context' : PyDict) (lines : List OutLine),
      output_results_loop formatter metric context results = .ok (context', lines) →
      ∀ l ∈ lines, name_clean l.name := by
  intro results
  induction results with
  | nil =>
      intro context context' lines h l hl
      simp only [output_results_loop] at h
      cases h
      simp at hl
  | cons result rest ih =>
      intro context context' lines h l hl
      simp only [output_results_loop] at h
      repeat' split at h
      all_goals first
        | exact Except.noConfusion h
        | (injection h with h'
           cases h'
           rcases List.mem_append.mp hl with hmem | hmem
           · exact output_result_stats_clean _ _ _ _ _ _ (by assumption) l hmem
           · exact ih _ _ _ (by assumption) l hmem)

theorem output_results_clean (results : List PyVal) (metric options : PyDict)
    (lines : List OutLine) (h : output_results results metric options = .ok lines) :
    ∀ l ∈ lines, name_clean l.name := by
  intro l hl
  simp only [output_results] at h
  repeat' split at h
  all_goals first
    | exact Except.noConfusion h
    | (injection h with h'
       cases h'
       exact output_results_loop_clean _ _ _ _ _ _ (by assumption) l hl)

theorem emit_log_line_clean (formatter : String) (ingestion_time : Int)
    (context : PyDict) (value : PyVal) (line : OutLine)
    (h : emit_log_line formatter ingestion_time context value = .ok line) :
    name_clean line.name := by
  simp only [emit_log_line] at h
  repeat' split at h
  all_goals first
    | exact Except.noConfusion h
    | (injection h with h'
       cases h'
       exact sanitize_name_clean _)

theorem process_stat_dict_clean (options : PyDict) (category : String)
    (ingestion_time : Int) :
    ∀ (entries : List (String × PyVal)) (context context' : PyDict)
      (lines : List OutLine),
      process_stat_dict options category ingestion_time context entries
        = .ok (context', lines) →
      ∀ l ∈ lines, name_clean l.name := by
  intro entries
  induction entries with
  | nil =>
      intro context context' lines h l hl
      simp only [process_stat_dict] at h
      cases h
      simp at hl
  | cons kv rest ih =>
      intro context context' lines h l hl
      simp only [process_stat_dict] at h
      repeat' split at h
      all_goals first
        | exact Except.noConfusion h
        | exact ih _ _ _ h l hl
        | (injection h with h'
           cases h'
           rcases List.mem_cons.mp hl with rfl | hmem
           · exact emit_log_line_clean _ _ _ _ _ (by assumption)
           · exact ih _ _ _ (by assumption) l hmem)

theorem process_list_stats_clean (options : PyDict) (category : String)
    (ingestion_time : Int) :
    ∀ (entries : List (String × PyVal)) (context context' : PyDict)
      (lines : List OutLine),
      process_list_stats options category ingestion_time context entries
        = .ok (context', lines) →
      ∀ l ∈ lines, name_clean l.name := by
  intro entries
  induction entries with
  | nil =>
      intro context context' lines h l hl
      simp only [process_list_stats] at h
      cases h
      simp at hl
  | cons kv rest ih =>
      intro context context' lines h l hl
      simp only [process_list_stats] at h
      repeat' split at h
      all_goals first
        | exact Except.noConfusion h
        | exact ih _ _ _ h l hl
        | (injection h with h'
           cases h'
           rcases List.mem_cons.mp hl with rfl | hmem
           · exact emit_log_line_clean _ _ _ _ _ (by assumption)
           · exact ih _ _ _ (by assumption) l hmem)

theorem process_stat_list_clean (options : PyDict) (category : String)
    (ingestion_time : Int) :
    ∀ (elems : List PyVal) (context context' : PyDict) (lines : List OutLine),
      process_stat_list options category ingestion_time context elems
        = .ok (context', lines) →
      ∀ l ∈ lines, name_clean l.name := by
  intro elems
  induction elems with
  | nil =>
      intro context context' lines h l hl
      simp only [process_stat_list] at h
      cases h
      simp at hl
  | cons elem rest ih =>
      intro context context' lines h l hl
      simp only [process_stat_list] at h
      repeat' split at h
      all_goals first
        | exact Except.noConfusion h
        | (injection h with h'
           cases h'
           rcases List.mem_append.mp hl with hmem | hmem
           · exact process_list_stats_clean _ _ _ _ _ _ _ (by assumption) l hmem
           · exact ih _ _ _ (by assumption) l hmem)

theorem process_categories_clean (options : PyDict) (ingestion_time : Int) :
    ∀ (cats : List (String × PyVal)) (context context' : PyDict)
      (lines : List OutLine),
      process_categories options ingestion_time context cats = .ok (context', lines) →
      ∀ l ∈ lines, name_clean l.name := by
  intro cats
  induction cats with
  | nil =>
      intro context context' lines h l hl
      simp only [process_categories] at h
      cases h
      simp at hl
  | cons kv rest ih =>
      intro context context' lines h l hl
      simp only [process_categories] at h
      repeat' split at h
      all_goals first
        | exact Except.noConfusion h
        | exact ih _ _ _ h l hl
        | (injection h with h'
           cases h'
           rcases List.mem_append.mp hl with hmem | hmem
           · first
             | exact process_stat_dict_clean _ _ _ _ _ _ _ (by assumption) l hmem
             | exact process_stat_list_clean _ _ _ _ _ _ _ (by assumption) l hmem
           · exact ih _ _ _ (by assumption) l hmem)

theorem process_one_result_clean (options context context' : PyDict)
    (result : PyVal) (lines : List OutLine)
    (h : process_one_result options context result = .ok (context', lines)) :
    ∀ l ∈ lines, name_clean l.name := by
  intro l hl
  simp only [process_one_result] at h
  repeat' split at h
  all_goals first
    | exact Except.noConfusion h
    | exact process_categories_clean _ _ _ _ _ _ h l hl

theorem process_log_loop_clean (options : PyDict) :
    ∀ (results : List PyVal) (context context' : PyDict) (lines : List OutLine),
      process_log_loop options context results = .ok (context', lines) →
      ∀ l ∈ lines, name_clean l.name := by
  intro results
  induction results with
  | nil =>
      intro context context' lines h l hl
      simp only [process_log_loop] at h
      cases h
      simp at hl
  | cons r rest ih =>
      intro context context' lines h l hl
      simp only [process_log_loop] at h
      repeat' split at h
      all_goals first
        | exact Except.noConfusion h
        | (injection h with h'
           cases h'
           rcases List.mem_append.mp hl with hmem | hmem
           · exact process_one_result_clean _ _ _ _ _ (by assumption) l hmem
           · exact ih _ _ _ (by assumption) l hmem)

/-- Claim C7 counterexample: the metric-name segment is not always ASCII.  With
a configured formatter holding a non-ASCII character the emitted line keeps it,
since replace and lower touch only slashes and uppercase letters. -/
theorem output_line_ascii_counterexample :
    output_results [result_c7] metric_c7 options_c7
      = .ok [⟨"é", "1", 0⟩] ∧
    ascii_only "é" = false := by
  exact ⟨rfl, rfl⟩

/-- Claim C7 amended: every OutLine emitted by either output path, the metrics
path through output_results and the enhanced-monitoring path through
process_log_results, has a metric-name segment containing no slash character
and no ASCII uppercase letter; it is ASCII only when the formatter and the
context values are. -/
theorem output_lines_clean :
    (∀ (results : List PyVal) (metric options : PyDict) (lines : List OutLine),
       output_results results metric options = .ok lines →
       ∀ l ∈ lines, name_clean l.name) ∧
    (∀ (results : List PyVal) (options : PyDict) (lines : List OutLine),
       process_log_results results options = .ok lines →
       ∀ l ∈ lines, name_clean l.name) := by
  constructor
  · intro results metric options lines h
    exact output_results_clean results metric options lines h
  · intro results options lines h l hl
    simp only [process_log_results] at h
    repeat' split at h
    all_goals first
      | exact Except.noConfusion h
      | (injection h with h'
         cases h'
         exact process_log_loop_clean _ _ _ _ _ (by assumption) l hl)

/-- Witness for C7: cleanliness of one concrete line from each output path. -/
theorem output_lines_clean_witness :
    name_clean (OutLine.mk "é" "1" 0).name ∧
    name_clean (OutLine.mk "l.util" "3" 1).name :=
  ⟨output_lines_clean.1 [result_c7] metric_c7 options_c7 [⟨"é", "1", 0⟩] rfl
     ⟨"é", "1", 0⟩ (List.mem_singleton.mpr rfl),
   output_lines_clean.2 [ev_disk_a, ev_cpu] options_c10
     [⟨"l.util", "3", 1⟩, ⟨"f.xvda.user", "1", 2⟩] rfl
     ⟨"l.util", "3", 1⟩ (List.mem_cons_self _ _)⟩

/-- Claim C8 counterexample: when the Dimensions key is absent the call fails
with KeyError instead of the dimension defaulting to the empty string; the
try/except around the reduction catches only AttributeError. -/
theorem dimension_absent_counterexample :
    resolve_dimension [("Statistics", PyVal.str "Sum")] = .error .keyError ∧
    output_results [] [("Statistics", PyVal.str "Sum")] [("Formatter", PyVal.str "x")]
      = .error .keyError := by
  exact ⟨rfl, rfl⟩

/-- Claim C8 amended: the dimension entry of the formatting context is the
first value of the Dimensions mapping when that key holds a nonempty mapping;
it is the empty string when the key holds a non-mapping value (the
AttributeError on the missing values method is caught); a missing Dimensions
key raises KeyError and an empty mapping raises IndexError, both failing the
call. -/
theorem resolve_dimension_cases :
    (∀ (metric : PyDict) (v : PyVal), alookup metric "Dimensions" = some v →
       is_dict v = false → resolve_dimension metric = .ok (.str "")) ∧
    (∀ (metric : PyDict) (k : String) (v : PyVal) (rest : PyDict),
       alookup metric "Dimensions" = some (.dict ((k, v) :: rest)) →
       resolve_dimension metric = .ok v) ∧
    (∀ metric : PyDict, alookup metric "Dimensions" = none →
       resolve_dimension metric = .error .keyError) ∧
    (∀ metric : PyDict, alookup metric "Dimensions" = some (.dict []) →
       resolve_dimension metric = .error .indexError) := by
  refine ⟨?_, ?_, ?_, ?_⟩
  · intro metric v h1 h2
    cases v with
    | dict d => simp [is_dict] at h2
    | int n => simp [resolve_dimension, h1]
    | str s => simp [resolve_dimension, h1]
    | list l => simp [resolve_dimension, h1]
  · intro metric k v rest h1
    simp [resolve_dimension, h1]
  · intro metric h1
    simp [resolve_dimension, h1]
  · intro metric h1
    simp [resolve_dimension, h1]

/-- Witness for C8: the four dimension-reduction behaviors at concrete
metrics. -/
theorem resolve_dimension_cases_witness :
    resolve_dimension [("Dimensions", PyVal.str "notamapping")] = .ok (.str "") ∧
    resolve_dimension [("Dimensions", PyVal.dict [("InstanceId", PyVal.str "i-1")])]
      = .ok (.str "i-1") ∧
    resolve_dimension [] = .error .keyError ∧
    resolve_dimension [("Dimensions", PyVal.dict [])] = .error .indexError :=
  ⟨resolve_dimension_cases.1 _ _ rfl rfl,
   resolve_dimension_cases.2.1 _ "InstanceId" _ [] rfl,
   resolve_dimension_cases.2.2.1 [] rfl,
   resolve_dimension_cases.2.2.2 _ rfl⟩

/-- Claim C10: the shared mutable context makes log output history-sensitive.
Two event sequences identical from the second event onward produce different
lines for that common event: the scalar formatter references ListCategory,
which retains whatever the preceding list-shaped element stored, xvda in one
run and xvdb in the other, while the common event itself is unchanged. -/
theorem stale_context_between_events :
    process_log_results [ev_disk_a, ev_cpu] options_c10
      = .ok [⟨"l.util", "3", 1⟩, ⟨"f.xvda.user", "1", 2⟩] ∧
    process_log_results [ev_disk_b, ev_cpu] options_c10
      = .ok [⟨"l.util", "3", 1⟩, ⟨"f.xvdb.user", "1", 2⟩] ∧
    (⟨"f.xvda.user", "1", 2⟩ : OutLine) ≠ ⟨"f.xvdb.user", "1", 2⟩ := by
  exact ⟨rfl, rfl, by decide⟩

theorem get_key_ok (d : PyDict) (k : String) (v : PyVal) (h : get_key d k = .ok v) :
    alookup d k = some v := by
  simp only [get_key] at h
  split at h
  · exact Except.noConfusion h
  · rename_i v' heq
    injection h with h'
    rw [heq, h']

theorem as_int_ok (v : PyVal) (n : Int) (h : as_int v = .ok n) : v = .int n := by
  cases v with
  | int m => injection h with h'; rw [h']
  | str s => exact Except.noConfusion h
  | list l => exact Except.noConfusion h
  | dict d => exact Except.noConfusion h

theorem mapE_ok_mem {α β : Type} (f : α → Except Err β) :
    ∀ (l : List α) (bs : List β), mapE f l = .ok bs →
      ∀ b ∈ bs, ∃ a ∈ l, f a = .ok b := by
  intro l
  induction l with
  | nil =>
      intro bs h b hb
      simp only [mapE] at h
      cases h
      simp at hb
  | cons a rest ih =>
      intro bs h b hb
      simp only [mapE] at h
      cases h1 : f a with
      | error e => simp only [h1] at h; exact Except.noConfusion h
      | ok b0 =>
          simp only [h1] at h
          cases h2 : mapE f rest with
          | error e => simp only [h2] at h; exact Except.noConfusion h
          | ok bs0 =>
              simp only [h2] at h
              injection h with h'
              cases h'
              rcases List.mem_cons.mp hb with rfl | hmem
              · exact ⟨a, List.mem_cons_self _ _, h1⟩
              · obtain ⟨a', ha', hfa⟩ := ih bs0 h2 b hmem
                exact ⟨a', List.mem_cons_of_mem _ ha', hfa⟩

theorem mapE_ok_map_eq {α β : Type} (f : α → Except Err β) (g : β → α) :
    ∀ (l : List α) (bs : List β), mapE f l = .ok bs →
      (∀ a b, f a = .ok b → g b = a) → bs.map g = l := by
  intro l
  induction l with
  | nil =>
      intro bs h hg
      simp only [mapE] at h
      cases h
      rfl
  | cons a rest ih =>
      intro bs h hg
      simp only [mapE] at h
      cases h1 : f a with
      | error e => simp only [h1] at h; exact Except.noConfusion h
      | ok b0 =>
          simp only [h1] at h
          cases h2 : mapE f rest with
          | error e => simp only [h2] at h; exact Except.noConfusion h
          | ok bs0 =>
              simp only [h2] at h
              injection h with h'
              cases h'
              simp only [List.map_cons, ih bs0 h2 hg, hg a b0 h1]

theorem process_one_name_ok (fetch_fn : FetchCall → List PyVal)
    (options metric : PyDict) (period_sec start_time end_time : Int)
    (unit : Option PyVal) (name : PyVal) (pr : FetchCall × List OutLine)
    (h : process_one_name fetch_fn options metric period_sec start_time end_time
        unit name = .ok pr) :
    alookup metric "Namespace" = some pr.1.nspace ∧
    alookup metric "Statistics" = some pr.1.statistics ∧
    alookup metric "Dimensions" = some pr.1.dimensions ∧
    pr.1.period = period_sec ∧ pr.1.start_time = start_time ∧
    pr.1.end_time = end_time ∧ pr.1.metric_name = name ∧ pr.1.unit = unit ∧
    ∃ padded,
      maybe_pad options name (fetch_fn pr.1) start_time end_time = .ok padded ∧
      output_results padded (set_key metric "MetricName" name) options = .ok pr.2 := by
  simp only [process_one_name] at h
  repeat' split at h
  all_goals first
    | exact Except.noConfusion h
    | (injection h with h'
       cases h'
       exact ⟨get_key_ok _ _ _ (by assumption), get_key_ok _ _ _ (by assumption),
         get_key_ok _ _ _ (by assumption), rfl, rfl, rfl, rfl, rfl,
         ⟨_, by assumption, by assumption⟩⟩)

/-- Claim C2 counterexample: the expanded fetches for one MetricSpec share a
single time window.  With a strictly advancing clock, the run over a spec whose
MetricName is the list A, B performs two fetches with identical start and end
times, both taken from the single window computed before the per-name loop; a
fresh computation at the next clock reading would yield a different window
end. -/
theorem expanded_fetches_share_window_counterexample :
    leadbutt_metrics clk_c2 fetch_empty none (some cli_c2) 0 [metric_c2]
      = .ok [(fc_a, []), (fc_b, [])] ∧
    fc_a.end_time = fc_b.end_time ∧
    fc_a.start_time = fc_b.start_time ∧
    align_end_us (clk_c2 1) 60 ≠ fc_a.end_time := by
  refine ⟨rfl, rfl, rfl, by decide⟩

/-- Claim C2 amended: a MetricSpec whose MetricName is a list of names yields
one fetch per name, in order; every expanded fetch inherits the Dimensions,
Statistics and Unit of the spec and the options resolved for the spec, and each
produces its own OutputLines from its own (optionally padded) results; but all
fetches expanded from the same spec share the single TimeWindow computed once
for that spec from one clock reading, rather than each using a freshly computed
window. -/
theorem expanded_fetches_structure (clock : Nat → Nat)
    (fetch_fn : FetchCall → List PyVal) (config_options cli_options : Option PyDict)
    (tick : Nat) (metric : PyDict) (pairs : List (FetchCall × List OutLine))
    (h : process_metric_spec clock fetch_fn config_options cli_options tick metric
      = .ok pairs) :
    ∃ lo p c names,
      metric_local_options metric = .ok lo ∧
      alookup (get_options config_options lo cli_options) "Period" = some (.int p) ∧
      alookup (get_options config_options lo cli_options) "Count" = some (.int c) ∧
      alookup metric "MetricName" = some names ∧
      pairs.map (fun pr => pr.1.metric_name) = py_as_list names ∧
      ∀ pr ∈ pairs,
        pr.1.period = p * 60 ∧
        pr.1.end_time = align_end_us (clock tick) (p * 60) ∧
        pr.1.start_time = align_start_us (align_end_us (clock tick) (p * 60)) (p * 60) c ∧
        alookup metric "Namespace" = some pr.1.nspace ∧
        alookup metric "Statistics" = some pr.1.statistics ∧
        alookup metric "Dimensions" = some pr.1.dimensions ∧
        pr.1.unit = alookup metric "Unit" ∧
        ∃ padded,
          maybe_pad (get_options config_options lo cli_options) pr.1.metric_name
            (fetch_fn pr.1) pr.1.start_time pr.1.end_time = .ok padded ∧
          output_results padded (set_key metric "MetricName" pr.1.metric_name)
            (get_options config_options lo cli_options) = .ok pr.2 := by
  simp only [process_metric_spec] at h
  cases h1 : metric_local_options metric with
  | error e => simp only [h1] at h; exact Except.noConfusion h
  | ok lo =>
      simp only [h1] at h
      cases h2 : get_key (get_options config_options lo cli_options) "Period" with
      | error e => simp only [h2] at h; exact Except.noConfusion h
      | ok pv =>
          simp only [h2] at h
          cases h3 : as_int pv with
          | error e => simp only [h3] at h; exact Except.noConfusion h
          | ok p =>
              simp only [h3] at h
              cases h4 : get_key (get_options config_options lo cli_options) "Count" with
              | error e => simp only [h4] at h; exact Except.noConfusion h
              | ok cv =>
                  simp only [h4] at h
                  cases h5 : as_int cv with
                  | error e => simp only [h5] at h; exact Except.noConfusion h
                  | ok c =>
                      simp only [h5] at h
                      cases h6 : get_key metric "MetricName" with
                      | error e => simp only [h6] at h; exact Except.noConfusion h
                      | ok names =>
                          simp only [h6] at h
                          refine ⟨lo, p, c, names, rfl, ?_, ?_, get_key_ok _ _ _ h6, ?_, ?_⟩
                          · rw [get_key_ok _ _ _ h2, as_int_ok _ _ h3]
                          · rw [get_key_ok _ _ _ h4, as_int_ok _ _ h5]
                          · exact mapE_ok_map_eq _ _ _ _ h
                              (fun a b hab =>
                                (process_one_name_ok _ _ _ _ _ _ _ _ _ hab).2.2.2.2.2.2.1)
                          · intro pr hpr
                            obtain ⟨a, _, hfa⟩ := mapE_ok_mem _ _ _ h pr hpr
                            obtain ⟨hn, hs, hd, hper, hst, hen, hname, hunit,
                              padded, hpad, hout⟩ :=
                              process_one_name_ok _ _ _ _ _ _ _ _ _ hfa
                            refine ⟨hper, hen, hst, hn, hs, hd, hunit, padded, ?_, ?_⟩
                            · rw [hname, hst, hen]
                              exact hpad
                            · rw [hname]
                              exact hout

/-- Witness for C2: the structural characterization applied to the concrete
two-name run of the counterexample clock. -/
theorem expanded_fetches_structure_witness :
    ∃ lo p c names,
      metric_local_options metric_c2 = .ok lo ∧
      alookup (get_options none lo (some cli_c2)) "Period" = some (.int p) ∧
      alookup (get_options none lo (some cli_c2)) "Count" = some (.int c) ∧
      alookup metric_c2 "MetricName" = some names ∧
      ([(fc_a, ([] : List OutLine)), (fc_b, [])].map (fun pr => pr.1.metric_name))
        = py_as_list names ∧
      ∀ pr ∈ [(fc_a, ([] : List OutLine)), (fc_b, [])],
        pr.1.period = p * 60 ∧
        pr.1.end_time = align_end_us (clk_c2 0) (p * 60) ∧
        pr.1.start_time = align_start_us (align_end_us (clk_c2 0) (p * 60)) (p * 60) c ∧
        alookup metric_c2 "Namespace" = some pr.1.nspace ∧
        alookup metric_c2 "Statistics" = some pr.1.statistics ∧
        alookup metric_c2 "Dimensions" = some pr.1.dimensions ∧
        pr.1.unit = alookup metric_c2 "Unit" ∧
        ∃ padded,
          maybe_pad (get_options none lo (some cli_c2)) pr.1.metric_name
            (fetch_empty pr.1) pr.1.start_time pr.1.end_time = .ok padded ∧
          output_results padded (set_key metric_c2 "MetricName" pr.1.metric_name)
            (get_options none lo (some cli_c2)) = .ok pr.2 :=
  expanded_fetches_structure clk_c2 fetch_empty none (some cli_c2) 0 metric_c2
    [(fc_a, []), (fc_b, [])] rfl
